import Mathlib

/-!
Verification of the article-scraper control-plane backend
(`web_server_ec2.py`): a shallow embedding of its job-status tracker,
log classifier, progress-statistics updater, bounded log buffers,
HTTP endpoint handlers and background-worker wrappers, together with
theorems about the specified properties.

Python strings are modelled as `List Char` (one element per code point)
where the code computes on their contents, and as `String` where they are
only stored and compared; the only case mapping the code relies on is
ASCII, which `Char.toLower` / `Char.toUpper` implement.  Python `int()`
truncation is applied only to nonnegative values here, so it is modelled
by `Rat.floor` followed by `Int.toNat`.
-/

namespace Scraper

/-- Python's `needle in hay` substring test on strings. -/
def strIn (needle hay : List Char) : Bool :=
  hay.tails.any (fun t => needle.isPrefixOf t)

/-- Python's `str.lower` (ASCII case mapping, which is all the code relies on). -/
def lowerStr (l : List Char) : List Char := l.map Char.toLower

/-- Python's `str.upper` (ASCII case mapping). -/
def upperStr (l : List Char) : List Char := l.map Char.toUpper

/-- `LocalScrapingJob._classify_log_line` (web_server_ec2.py lines 325-333):
keyword substring match on the lowercased line, in priority order; the
result is one of the four severity-tag strings. -/
def classify_log_line (line : List Char) : String :=
  let line_lower := lowerStr line
  if ["error".toList, "failed".toList, "exception".toList].any
      (fun w => strIn w line_lower) then "error"
  else if ["success".toList, "saved".toList, "complete".toList].any
      (fun w => strIn w line_lower) then "success"
  else if ["warning".toList, "filtered".toList].any
      (fun w => strIn w line_lower) then "warning"
  else "info"

/-- An entry of one of the three log buffers:
`{'timestamp': ..., 'message': ..., 'type': ...}`. -/
structure LogEntry where
  timestamp : String
  message : String
  type : String
deriving DecidableEq, Repr

/-- Shared shape of the three log-append helpers (`add_log`,
`add_conversion_log`, `add_summarization_log`): append the new entry, then
`pop(0)` when the buffer length exceeds the bound. -/
def append_bounded (bound : ℕ) (logs : List LogEntry) (e : LogEntry) : List LogEntry :=
  let l := logs ++ [e]
  if l.length > bound then l.drop 1 else l

/-- `add_log` (lines 63-69): scrape log buffer, bound 500.  The timestamp
(`datetime.now().strftime(...)`) is passed in as a parameter. -/
def add_log (logs : List LogEntry) (ts message log_type : String) : List LogEntry :=
  append_bounded 500 logs ⟨ts, message, log_type⟩

/-- `add_conversion_log` (lines 71-77): conversion log buffer, bound 200. -/
def add_conversion_log (logs : List LogEntry) (ts message log_type : String) : List LogEntry :=
  append_bounded 200 logs ⟨ts, message, log_type⟩

/-- `add_summarization_log` (lines 79-85): summarization log buffer, bound 300. -/
def add_summarization_log (logs : List LogEntry) (ts message log_type : String) : List LogEntry :=
  append_bounded 300 logs ⟨ts, message, log_type⟩

/-- The `scraping_stats` record. -/
structure ScrapingStats where
  articlesFound : ℕ
  articlesSaved : ℕ
  imagesFound : ℕ
  progress : ℕ
  completed : Bool
  sessionId : Option String
deriving DecidableEq, Repr

/-- Initial `scraping_stats` (lines 43-50). -/
def scraping_stats_init : ScrapingStats :=
  { articlesFound := 0, articlesSaved := 0, imagesFound := 0,
    progress := 0, completed := false, sessionId := none }

def S3_TEXT_BUCKET_NAME : String := "bockscraper1"

def S3_SUMMARY_BUCKET_NAME : String := "bockscraper2"

/-- The `conversion_stats` record.  The `filesConverted` key is absent from
the initial record and added later, hence `Option ℕ`. -/
structure ConversionStats where
  completed : Bool
  error : Option String
  targetBucket : Option String
  filesConverted : Option ℕ
deriving DecidableEq, Repr

/-- Initial `conversion_stats` (line 54). -/
def conversion_stats_init : ConversionStats :=
  { completed := false, error := none, targetBucket := none, filesConverted := none }

/-- The `summarization_stats` record. -/
structure SummarizationStats where
  completed : Bool
  error : Option String
  targetBucket : String
  textSummaries : ℕ
  imageSummaries : ℕ
  totalFolders : ℕ
deriving DecidableEq, Repr

/-- Initial `summarization_stats` (lines 58-61). -/
def summarization_stats_init : SummarizationStats :=
  { completed := false, error := none, targetBucket := S3_SUMMARY_BUCKET_NAME,
    textSummaries := 0, imageSummaries := 0, totalFolders := 0 }

/-- `"SAVED:" in line and "article.json" in line` (line 339). -/
def hasArticleMarker (line : List Char) : Bool :=
  strIn "SAVED:".toList line && strIn "article.json".toList line

/-- `"SUCCESS: Saved" in line and "image.jpg" in line` (line 346). -/
def hasImageMarker (line : List Char) : Bool :=
  strIn "SUCCESS: Saved".toList line && strIn "image.jpg".toList line

/-- `"COMPLETE" in line.upper()` (line 352). -/
def hasCompleteMarker (line : List Char) : Bool :=
  strIn "COMPLETE".toList (upperStr line)

/-- First block of `LocalScrapingJob._update_stats_from_log` (lines 339-343):
count a saved article and raise `progress` into the 15→80 band. -/
def update_article (max_articles : ℕ) (s : ScrapingStats) (line : List Char) : ScrapingStats :=
  if hasArticleMarker line then
    let articlesFound := s.articlesFound + 1
    let progress : ℚ := min (15 + ((articlesFound : ℚ) / (max_articles : ℚ)) * 65) 80
    { s with articlesFound := articlesFound,
             articlesSaved := articlesFound,
             progress := max s.progress progress.floor.toNat }
  else s

/-- Second block of `LocalScrapingJob._update_stats_from_log` (lines 346-349):
count a saved image and raise `progress` into the 80→95 band. -/
def update_image (max_articles : ℕ) (s : ScrapingStats) (line : List Char) : ScrapingStats :=
  if hasImageMarker line then
    let imagesFound := s.imagesFound + 1
    let progress : ℚ := min (80 + ((imagesFound : ℚ) / (max_articles : ℚ)) * 15) 95
    { s with imagesFound := imagesFound,
             progress := max s.progress progress.floor.toNat }
  else s

/-- Third block of `LocalScrapingJob._update_stats_from_log` (lines 352-353):
a completion marker sets `progress` to 100. -/
def update_complete (s : ScrapingStats) (line : List Char) : ScrapingStats :=
  if hasCompleteMarker line then { s with progress := 100 } else s

/-- `LocalScrapingJob._update_stats_from_log` (lines 335-353): the three
blocks run in sequence on the same line. -/
def update_stats_from_log (max_articles : ℕ) (s : ScrapingStats) (line : List Char) :
    ScrapingStats :=
  update_complete (update_image max_articles (update_article max_articles s line) line) line

/-- Stats effect of the start of `_run_scraping`'s `try` body (line 266):
`scraping_stats['progress'] = 10`. -/
def scrape_run_start (s : ScrapingStats) : ScrapingStats :=
  { s with progress := 10 }

/-- Stats effect of the session announcement in `_run_scraping`
(lines 282-283): `progress = 15`, `sessionId = session_id`. -/
def scrape_run_announce (session_id : String) (s : ScrapingStats) : ScrapingStats :=
  { s with progress := 15, sessionId := some session_id }

/-- Stats effect of the post-loop part of `_run_scraping` (lines 309-316):
exit code 0 while still running sets `progress = 100`, `completed = True`;
otherwise `progress = 0`. -/
def scrape_run_finish (returncode : Int) (is_running : Bool) (s : ScrapingStats) :
    ScrapingStats :=
  if returncode == 0 && is_running then { s with progress := 100, completed := true }
  else { s with progress := 0 }

/-- Stats effect of a whole non-raising run of `_run_scraping`: the start
assignments, the session announcement, the per-line updates of the streamed
`lines`, then the post-loop update. -/
def scrape_run_stats (max_articles : ℕ) (session_id : String) (lines : List (List Char))
    (returncode : Int) (is_running : Bool) (s : ScrapingStats) : ScrapingStats :=
  scrape_run_finish returncode is_running
    (lines.foldl (update_stats_from_log max_articles)
      (scrape_run_announce session_id (scrape_run_start s)))

/-- The scrape job's share of the global state, as touched by
`_run_scraping`'s `except`/`finally` clauses. -/
structure ScrapeJobState where
  logs : List LogEntry
  stats : ScrapingStats
  scraping_active : Bool
  is_running : Bool
deriving DecidableEq, Repr

/-- The conversion job's share of the global state. -/
structure ConversionJobState where
  logs : List LogEntry
  stats : ConversionStats
  conversion_active : Bool
deriving DecidableEq, Repr

/-- The summarization job's share of the global state. -/
structure SummarizationJobState where
  logs : List LogEntry
  stats : SummarizationStats
  summarization_active : Bool
deriving DecidableEq, Repr

/-- `try`/`except`/`finally` skeleton of `_run_conversion` (lines 87-137).
The `try` body's outcome is `.ok` with the state it left, or `.error` with
`str(e)` and the state at the moment the exception was raised; the
`except` clause records the message (lines 133-135) and the `finally`
clause clears the active flag (lines 136-137). -/
def run_conversion_wrapper (ts : String)
    (outcome : Except (String × ConversionJobState) ConversionJobState) :
    ConversionJobState :=
  match outcome with
  | .ok st => { st with conversion_active := false }
  | .error (msg, st) =>
      let stats := { st.stats with error := some msg }
      let logs := add_conversion_log st.logs ts ("Conversion failed: " ++ msg) "error"
      { st with stats := stats, logs := logs, conversion_active := false }

/-- `try`/`except`/`finally` skeleton of `_run_summarization`
(lines 139-234): the `except` clause records the message (lines 230-232)
and the `finally` clause clears the active flag (lines 233-234). -/
def run_summarization_wrapper (ts : String)
    (outcome : Except (String × SummarizationJobState) SummarizationJobState) :
    SummarizationJobState :=
  match outcome with
  | .ok st => { st with summarization_active := false }
  | .error (msg, st) =>
      let stats := { st.stats with error := some msg }
      let logs := add_summarization_log st.logs ts ("Summarization failed: " ++ msg) "error"
      { st with stats := stats, logs := logs, summarization_active := false }

/-- `try`/`except`/`finally` skeleton of `LocalScrapingJob._run_scraping`
(lines 261-323): the `except` clause logs the message and zeroes progress
(lines 318-320), the `finally` clause clears `is_running` and
`scraping_active` (lines 321-323). -/
def run_scraping_wrapper (ts : String)
    (outcome : Except (String × ScrapeJobState) ScrapeJobState) : ScrapeJobState :=
  match outcome with
  | .ok st => { st with is_running := false, scraping_active := false }
  | .error (msg, st) =>
      let logs := add_log st.logs ts ("Error: " ++ msg) "error"
      let stats := { st.stats with progress := 0 }
      { st with logs := logs, stats := stats, is_running := false, scraping_active := false }

/-- The module-level mutable state of the server, one field per global. -/
structure ServerState where
  scraping_active : Bool
  all_logs : List LogEntry
  scraping_stats : ScrapingStats
  conversion_active : Bool
  conversion_logs : List LogEntry
  conversion_stats : ConversionStats
  summarization_active : Bool
  summarization_logs : List LogEntry
  summarization_stats : SummarizationStats
deriving DecidableEq, Repr

/-- The responses the modelled endpoints produce: a 400 with an error body,
a 200 "started" body (with the session id when the endpoint reports one),
or the `{'status': 'stopped'}` body of `stop_scraping`. -/
inductive HttpResponse where
  | badRequest (error : String)
  | started (sessionId : Option String)
  | stopped
deriving DecidableEq, Repr

/-- Reset record written by `start_scraping` (lines 379-382). -/
def scraping_stats_reset : ScrapingStats :=
  { articlesFound := 0, articlesSaved := 0, imagesFound := 0,
    progress := 0, completed := false, sessionId := none }

/-- Reset record written by `convert_to_text` (line 482). -/
def conversion_stats_reset : ConversionStats :=
  { completed := false, error := none, targetBucket := some S3_TEXT_BUCKET_NAME,
    filesConverted := some 0 }

/-- Reset record written by `generate_summaries` (lines 508-511). -/
def summarization_stats_reset : SummarizationStats :=
  { completed := false, error := none, targetBucket := S3_SUMMARY_BUCKET_NAME,
    textSummaries := 0, imageSummaries := 0, totalFolders := 0 }

/-- Python falsiness `not x` for `data.get(...)`: `None` or the empty string. -/
def isBlank (x : Option String) : Bool := (x.getD "").isEmpty

/-- `start_scraping` endpoint (lines 364-393).  `session_id` stands for the
fresh `f"session_{int(time.time())}"` of the job the handler creates;
`max_articles` is `data.get('maxArticles', 10)`, stored on the job.
Starting the background thread itself has no further effect on the
modelled state. -/
def start_scraping (url : Option String) (max_articles : ℕ) (session_id : String)
    (st : ServerState) : HttpResponse × ServerState :=
  if st.scraping_active then (.badRequest "Scraping already in progress", st)
  else if isBlank url then (.badRequest "URL is required", st)
  else (.started (some session_id),
    { st with scraping_stats := scraping_stats_reset, all_logs := [],
              scraping_active := true })

/-- `stop_scraping` endpoint (lines 395-401): stops the current job (a
process-level effect outside this state) and clears `scraping_active`,
unconditionally answering `{'status': 'stopped'}`. -/
def stop_scraping (st : ServerState) : HttpResponse × ServerState :=
  (.stopped, { st with scraping_active := false })

/-- `convert_to_text` endpoint (lines 468-488). -/
def convert_to_text (sourceSession : Option String) (st : ServerState) :
    HttpResponse × ServerState :=
  if st.conversion_active then (.badRequest "Conversion already in progress", st)
  else if isBlank sourceSession then (.badRequest "sourceSession is required", st)
  else (.started none,
    { st with conversion_logs := [], conversion_stats := conversion_stats_reset,
              conversion_active := true })

/-- `generate_summaries` endpoint (lines 494-517). -/
def generate_summaries (sourceSession : Option String) (st : ServerState) :
    HttpResponse × ServerState :=
  if st.summarization_active then (.badRequest "Summarization already in progress", st)
  else if isBlank sourceSession then (.badRequest "sourceSession is required", st)
  else (.started none,
    { st with summarization_logs := [], summarization_stats := summarization_stats_reset,
              summarization_active := true })

/-- One object of an S3 `list_objects_v2` response, with its
`LastModified` already rendered by `isoformat()`. -/
structure S3ObjectInfo where
  key : List Char
  size : ℕ
  lastModified : String
deriving DecidableEq, Repr

/-- The fields of the S3 `list_objects_v2` response that `list_bucket`
reads: `CommonPrefixes` (here `commonPfxs`) and `Contents`. -/
structure BucketPage where
  commonPfxs : List (List Char)
  contents : List S3ObjectInfo
deriving DecidableEq, Repr

/-- A folder entry of the `list_bucket` response. -/
structure FolderEntry where
  name : List Char
deriving DecidableEq, Repr

/-- A file entry of the `list_bucket` response. -/
structure FileEntry where
  name : List Char
  key : List Char
  size : ℕ
  lastModified : String
deriving DecidableEq, Repr

/-- Python's `s.rstrip(c)`: drop every trailing occurrence of `c`. -/
def rstrip (c : Char) (s : List Char) : List Char :=
  (s.reverse.dropWhile (fun x => x == c)).reverse

/-- Request-prefix normalization of `list_bucket` (lines 420-421):
`if prefix and not prefix.endswith('/'): prefix += '/'`. -/
def normalize_pfx (p : List Char) : List Char :=
  if !p.isEmpty && !(List.isSuffixOf "/".toList p) then p ++ "/".toList else p

/-- `list_bucket` endpoint (lines 411-447), applied to the S3 response
`page` for the normalized prefix: folders from `CommonPrefixes` with the
prefix and trailing slashes stripped, files from `Contents` excluding the
prefix object itself and anything nested deeper than one level. -/
def list_bucket (req_pfx : List Char) (page : BucketPage) :
    List FolderEntry × List FileEntry :=
  let pfx := normalize_pfx req_pfx
  let folders := page.commonPfxs.map
    (fun cp => { name := rstrip '/' (cp.drop pfx.length) : FolderEntry })
  let files := page.contents.filterMap (fun obj =>
    if obj.key = pfx then none
    else
      let file_name := obj.key.drop pfx.length
      if !file_name.contains '/' then
        some { name := file_name, key := obj.key, size := obj.size,
               lastModified := obj.lastModified : FileEntry }
      else none)
  (folders, files)

/-- A sample server state with all three job kinds active. -/
def busyState : ServerState :=
  { scraping_active := true, all_logs := [], scraping_stats := scraping_stats_init,
    conversion_active := true, conversion_logs := [], conversion_stats := conversion_stats_init,
    summarization_active := true, summarization_logs := [],
    summarization_stats := summarization_stats_init }

/-- A sample S3 listing under `session_1/`: the prefix object itself, one
top-level file and one file nested in a sub-folder. -/
def samplePage : BucketPage :=
  { commonPfxs := ["session_1/images/".toList],
    contents := [⟨"session_1/".toList, 0, "2025-01-01T00:00:00"⟩,
                 ⟨"session_1/a.json".toList, 120, "2025-01-01T00:00:01"⟩,
                 ⟨"session_1/images/b.jpg".toList, 5, "2025-01-01T00:00:02"⟩] }

/-- A sample server state with no job active. -/
def idleState : ServerState :=
  { scraping_active := false, all_logs := [], scraping_stats := scraping_stats_init,
    conversion_active := false, conversion_logs := [], conversion_stats := conversion_stats_init,
    summarization_active := false, summarization_logs := [],
    summarization_stats := summarization_stats_init }

/-- A sample server state with a scrape running but no conversion or
summarization active. -/
def scrapeOnlyState : ServerState :=
  { scraping_active := true, all_logs := [], scraping_stats := scraping_stats_init,
    conversion_active := false, conversion_logs := [], conversion_stats := conversion_stats_init,
    summarization_active := false, summarization_logs := [],
    summarization_stats := summarization_stats_init }

/-! ### Helper lemmas -/

theorem ratFloor_eq (q : ℚ) : q.floor = ⌊q⌋ := by
  rw [Rat.floor_def, Rat.floor_def']

theorem band_eq (base mult cap N cnt : ℕ) (hcap : base ≤ cap) :
    (min ((base : ℚ) + ((cnt : ℚ) / (N : ℚ)) * (mult : ℚ)) (cap : ℚ)).floor.toNat
      = min (base + mult * cnt / N) cap := by
  rw [ratFloor_eq, Int.floor_toNat]
  rcases Nat.eq_zero_or_pos N with hN | hN
  · subst hN
    norm_num [min_eq_left, hcap, Nat.min_eq_left]
  · have hdiv : ((cnt : ℚ) / (N : ℚ)) * (mult : ℚ) = ((mult * cnt : ℕ) : ℚ) / ((N : ℕ) : ℚ) := by
      push_cast; ring
    rw [hdiv]
    set q : ℚ := ((mult * cnt : ℕ) : ℚ) / ((N : ℕ) : ℚ) with hq
    have hq0 : 0 ≤ q := by positivity
    have hfl : ⌊q⌋₊ = mult * cnt / N := by
      rw [hq, Nat.floor_div_nat, Nat.floor_natCast]
    have hkq : ((mult * cnt / N : ℕ) : ℚ) ≤ q := by
      rw [← hfl]; exact Nat.floor_le hq0
    rcases le_total ((base : ℚ) + q) (cap : ℚ) with h | h
    · rw [min_eq_left h, add_comm, Nat.floor_add_nat hq0 base, hfl]
      have hle : base + mult * cnt / N ≤ cap := by
        have : ((base + mult * cnt / N : ℕ) : ℚ) ≤ (cap : ℚ) := by push_cast; linarith
        exact_mod_cast this
      rw [Nat.min_eq_left hle, Nat.add_comm]
    · rw [min_eq_right h]
      have hge : cap ≤ base + mult * cnt / N := by
        have h1 : ((cap - base : ℕ) : ℚ) ≤ q := by
          have : ((cap - base : ℕ) : ℚ) ≤ (cap : ℚ) - (base : ℚ) := by
            rw [Nat.cast_sub hcap]
          linarith
        have h2 : cap - base ≤ mult * cnt / N := by rw [← hfl]; exact Nat.le_floor h1
        omega
      rw [Nat.min_eq_right hge, Nat.floor_natCast]

theorem articleBand_eq (N af : ℕ) :
    (min (15 + ((af : ℚ) / (N : ℚ)) * 65) 80).floor.toNat = min (15 + 65 * af / N) 80 := by
  have h := band_eq 15 65 80 N af (by norm_num)
  push_cast at h
  exact h

theorem imageBand_eq (N imf : ℕ) :
    (min (80 + ((imf : ℚ) / (N : ℚ)) * 15) 95).floor.toNat = min (80 + 15 * imf / N) 95 := by
  have h := band_eq 80 15 95 N imf (by norm_num)
  push_cast at h
  exact h

theorem articleBand_le (N af : ℕ) :
    (min (15 + ((af : ℚ) / (N : ℚ)) * 65) 80).floor.toNat ≤ 80 := by
  rw [articleBand_eq]; omega

theorem imageBand_le (N imf : ℕ) :
    (min (80 + ((imf : ℚ) / (N : ℚ)) * 15) 95).floor.toNat ≤ 95 := by
  rw [imageBand_eq]; omega

theorem append_bounded_def (bound : ℕ) (logs : List LogEntry) (e : LogEntry) :
    append_bounded bound logs e =
      if (logs ++ [e]).length > bound then (logs ++ [e]).drop 1 else (logs ++ [e]) := rfl

theorem append_bounded_length (bound : ℕ) (logs : List LogEntry) (e : LogEntry) :
    (append_bounded bound logs e).length =
      if logs.length + 1 > bound then logs.length else logs.length + 1 := by
  rw [append_bounded_def]
  split_ifs with h <;>
    simp only [List.length_drop, List.length_append, List.length_cons, List.length_nil]
      at h ⊢ <;> omega

theorem append_bounded_length_le (bound : ℕ) (logs : List LogEntry) (e : LogEntry)
    (h : logs.length ≤ bound) : (append_bounded bound logs e).length ≤ bound := by
  rw [append_bounded_length]
  split_ifs <;> omega

theorem append_bounded_eq_of_lt (bound : ℕ) (logs : List LogEntry) (e : LogEntry)
    (h : logs.length < bound) : append_bounded bound logs e = logs ++ [e] := by
  rw [append_bounded_def, if_neg]
  simp only [List.length_append, List.length_cons, List.length_nil]
  omega

theorem append_bounded_eq_of_eq (bound : ℕ) (logs : List LogEntry) (e : LogEntry)
    (hb : 0 < bound) (h : logs.length = bound) :
    append_bounded bound logs e = logs.tail ++ [e] := by
  rw [append_bounded_def, if_pos]
  · cases logs with
    | nil => simp at h; omega
    | cons a t => simp
  · simp only [List.length_append, List.length_cons, List.length_nil]
    omega

theorem append_bounded_mem_self (bound : ℕ) (logs : List LogEntry) (e : LogEntry)
    (hb : 0 < bound) : e ∈ append_bounded bound logs e := by
  rw [append_bounded_def]
  split_ifs with h
  · cases logs with
    | nil => simp at h; omega
    | cons a t => simp
  · simp

/-! ### Claim theorems -/

/-- C3: for every log line the classifier returns exactly one of the four
severity tags, decided by keyword substring match (on the lowercased line,
as the code matches case-insensitively) in priority order: `error` keywords
first, then `success` keywords, then `warning` keywords, else `info`. -/
theorem classify_log_line_priority (line : List Char) :
    classify_log_line line ∈ ["error", "success", "warning", "info"] ∧
    (["error".toList, "failed".toList, "exception".toList].any
        (fun w => strIn w (lowerStr line)) = true →
      classify_log_line line = "error") ∧
    (["error".toList, "failed".toList, "exception".toList].any
        (fun w => strIn w (lowerStr line)) = false →
     ["success".toList, "saved".toList, "complete".toList].any
        (fun w => strIn w (lowerStr line)) = true →
      classify_log_line line = "success") ∧
    (["error".toList, "failed".toList, "exception".toList].any
        (fun w => strIn w (lowerStr line)) = false →
     ["success".toList, "saved".toList, "complete".toList].any
        (fun w => strIn w (lowerStr line)) = false →
     ["warning".toList, "filtered".toList].any
        (fun w => strIn w (lowerStr line)) = true →
      classify_log_line line = "warning") ∧
    (["error".toList, "failed".toList, "exception".toList].any
        (fun w => strIn w (lowerStr line)) = false →
     ["success".toList, "saved".toList, "complete".toList].any
        (fun w => strIn w (lowerStr line)) = false →
     ["warning".toList, "filtered".toList].any
        (fun w => strIn w (lowerStr line)) = false →
      classify_log_line line = "info") := by
  constructor
  · simp only [classify_log_line]
    split_ifs <;> simp
  · refine ⟨?_, ?_, ?_, ?_⟩ <;> intros <;> simp_all [classify_log_line]

/-- Witness for C3 at concrete lines from each priority class. -/
theorem classify_log_line_priority_witness :
    classify_log_line "Download failed for page 3".toList = "error" ∧
    classify_log_line "SAVED: out/article.json".toList = "success" ∧
    classify_log_line "WARNING: duplicate filtered".toList = "warning" ∧
    classify_log_line "Fetching page 4".toList = "info" :=
  ⟨(classify_log_line_priority _).2.1 (by decide),
   (classify_log_line_priority _).2.2.1 (by decide) (by decide),
   (classify_log_line_priority _).2.2.2.1 (by decide) (by decide) (by decide),
   (classify_log_line_priority _).2.2.2.2 (by decide) (by decide) (by decide)⟩

/-- C10: classification is case-insensitive — two lines that agree after
lowercasing (in particular, two lines differing only in letter case) get
the same severity tag, because the classifier only looks at the lowercased
line. -/
theorem classify_log_line_case_insensitive (l₁ l₂ : List Char)
    (h : lowerStr l₁ = lowerStr l₂) :
    classify_log_line l₁ = classify_log_line l₂ := by
  simp only [classify_log_line]
  rw [h]

/-- Witness for C10 at a concrete pair of case-variant lines. -/
theorem classify_log_line_case_insensitive_witness :
    classify_log_line "ERROR: Timeout".toList = classify_log_line "error: timeout".toList :=
  classify_log_line_case_insensitive _ _ (by decide)

/-- C5: each of the three log-append helpers keeps its buffer at or below
its bound (500 scrape / 200 conversion / 300 summarization); at the bound
the oldest (front) entry is dropped and the new entry appended, below the
bound the new entry is just appended. -/
theorem log_buffers_bounded (ls lc lm : List LogEntry) (ts m t : String)
    (hs : ls.length ≤ 500) (hc : lc.length ≤ 200) (hm : lm.length ≤ 300) :
    ((add_log ls ts m t).length ≤ 500 ∧
      (ls.length = 500 → add_log ls ts m t = ls.tail ++ [⟨ts, m, t⟩]) ∧
      (ls.length < 500 → add_log ls ts m t = ls ++ [⟨ts, m, t⟩])) ∧
    ((add_conversion_log lc ts m t).length ≤ 200 ∧
      (lc.length = 200 → add_conversion_log lc ts m t = lc.tail ++ [⟨ts, m, t⟩]) ∧
      (lc.length < 200 → add_conversion_log lc ts m t = lc ++ [⟨ts, m, t⟩])) ∧
    ((add_summarization_log lm ts m t).length ≤ 300 ∧
      (lm.length = 300 → add_summarization_log lm ts m t = lm.tail ++ [⟨ts, m, t⟩]) ∧
      (lm.length < 300 → add_summarization_log lm ts m t = lm ++ [⟨ts, m, t⟩])) := by
  unfold add_log add_conversion_log add_summarization_log
  exact ⟨⟨append_bounded_length_le 500 ls _ hs,
          fun h => append_bounded_eq_of_eq 500 ls _ (by norm_num) h,
          fun h => append_bounded_eq_of_lt 500 ls _ h⟩,
         ⟨append_bounded_length_le 200 lc _ hc,
          fun h => append_bounded_eq_of_eq 200 lc _ (by norm_num) h,
          fun h => append_bounded_eq_of_lt 200 lc _ h⟩,
         ⟨append_bounded_length_le 300 lm _ hm,
          fun h => append_bounded_eq_of_eq 300 lm _ (by norm_num) h,
          fun h => append_bounded_eq_of_lt 300 lm _ h⟩⟩

/-- Witness for C5: buffers exactly at their bounds drop their oldest
entry, and an empty buffer just receives the appended entry. -/
theorem log_buffers_bounded_witness :
    (add_log (List.replicate 500 ⟨"00:00:00", "old", "info"⟩) "12:00:00" "m" "info"
      = (List.replicate 500 (⟨"00:00:00", "old", "info"⟩ : LogEntry)).tail
          ++ [⟨"12:00:00", "m", "info"⟩]) ∧
    (add_conversion_log (List.replicate 200 ⟨"00:00:00", "old", "info"⟩) "12:00:00" "m" "info"
      = (List.replicate 200 (⟨"00:00:00", "old", "info"⟩ : LogEntry)).tail
          ++ [⟨"12:00:00", "m", "info"⟩]) ∧
    (add_summarization_log (List.replicate 300 ⟨"00:00:00", "old", "info"⟩) "12:00:00" "m" "info"
      = (List.replicate 300 (⟨"00:00:00", "old", "info"⟩ : LogEntry)).tail
          ++ [⟨"12:00:00", "m", "info"⟩]) ∧
    add_log [] "12:00:00" "m" "info" = [⟨"12:00:00", "m", "info"⟩] := by
  have h := log_buffers_bounded (List.replicate 500 ⟨"00:00:00", "old", "info"⟩)
    (List.replicate 200 ⟨"00:00:00", "old", "info"⟩)
    (List.replicate 300 ⟨"00:00:00", "old", "info"⟩) "12:00:00" "m" "info"
    (by rw [List.length_replicate]) (by rw [List.length_replicate]) (by rw [List.length_replicate])
  have h0 := log_buffers_bounded [] [] [] "12:00:00" "m" "info"
    (by simp) (by simp) (by simp)
  exact ⟨h.1.2.1 (List.length_replicate 500 _),
         h.2.1.2.1 (List.length_replicate 200 _),
         h.2.2.2.1 (List.length_replicate 300 _),
         by simpa using h0.1.2.2 (by simp)⟩

/-- C9: `articlesSaved = articlesFound` holds in the initial record, in the
record reset by `POST /start_scraping`, and is preserved by every per-line
statistics update of the scrape worker. -/
theorem articlesSaved_eq_articlesFound (N : ℕ) (s : ScrapingStats) (l : List Char)
    (h : s.articlesSaved = s.articlesFound) :
    scraping_stats_init.articlesSaved = scraping_stats_init.articlesFound ∧
    scraping_stats_reset.articlesSaved = scraping_stats_reset.articlesFound ∧
    (update_stats_from_log N s l).articlesSaved = (update_stats_from_log N s l).articlesFound := by
  refine ⟨rfl, rfl, ?_⟩
  unfold update_stats_from_log update_complete update_image update_article
  split_ifs <;> simp_all

/-- Witness for C9 at a concrete stats record and a line that saves an
article. -/
theorem articlesSaved_eq_articlesFound_witness :
    (update_stats_from_log 10 scraping_stats_init "SAVED: out/article.json".toList).articlesSaved
      = (update_stats_from_log 10 scraping_stats_init
          "SAVED: out/article.json".toList).articlesFound :=
  (articlesSaved_eq_articlesFound 10 scraping_stats_init _ rfl).2.2

/-- C6: each background worker wrapper catches the body's exception at top
level, records the human-readable message into the job's log buffer and/or
the statistics record's `error` field, and leaves the job's active flag
false whether the body succeeded or raised (for the scrape worker also
`is_running`). -/
theorem worker_cleanup (ts msg : String) (cst : ConversionJobState)
    (sst : SummarizationJobState) (st : ScrapeJobState) :
    (run_conversion_wrapper ts (.ok cst)).conversion_active = false ∧
    (run_conversion_wrapper ts (.error (msg, cst))).conversion_active = false ∧
    (run_conversion_wrapper ts (.error (msg, cst))).stats.error = some msg ∧
    (⟨ts, "Conversion failed: " ++ msg, "error"⟩ : LogEntry) ∈
      (run_conversion_wrapper ts (.error (msg, cst))).logs ∧
    (run_summarization_wrapper ts (.ok sst)).summarization_active = false ∧
    (run_summarization_wrapper ts (.error (msg, sst))).summarization_active = false ∧
    (run_summarization_wrapper ts (.error (msg, sst))).stats.error = some msg ∧
    (⟨ts, "Summarization failed: " ++ msg, "error"⟩ : LogEntry) ∈
      (run_summarization_wrapper ts (.error (msg, sst))).logs ∧
    (run_scraping_wrapper ts (.ok st)).scraping_active = false ∧
    (run_scraping_wrapper ts (.ok st)).is_running = false ∧
    (run_scraping_wrapper ts (.error (msg, st))).scraping_active = false ∧
    (run_scraping_wrapper ts (.error (msg, st))).is_running = false ∧
    (run_scraping_wrapper ts (.error (msg, st))).stats.progress = 0 ∧
    (⟨ts, "Error: " ++ msg, "error"⟩ : LogEntry) ∈
      (run_scraping_wrapper ts (.error (msg, st))).logs := by
  refine ⟨rfl, rfl, rfl, ?_, rfl, rfl, rfl, ?_, rfl, rfl, rfl, rfl, rfl, ?_⟩
  · exact append_bounded_mem_self 200 cst.logs _ (by norm_num)
  · exact append_bounded_mem_self 300 sst.logs _ (by norm_num)
  · exact append_bounded_mem_self 500 st.logs _ (by norm_num)

/-- C2 (amended): no per-line statistics update writes a progress value
smaller than the stored one (which always stays at most 100), and the
end-of-run update of a successful, unstopped run (exit code 0) never
decreases it either; only the failure/stop path of the end-of-run update
resets progress to 0 (see the counterexample to the unamended claim). -/
theorem per_line_progress_monotone (N : ℕ) (s : ScrapingStats) (l : List Char)
    (h : s.progress ≤ 100) :
    s.progress ≤ (update_stats_from_log N s l).progress ∧
    (update_stats_from_log N s l).progress ≤ 100 ∧
    s.progress ≤ (scrape_run_finish 0 true s).progress := by
  have hA := articleBand_le N (s.articlesFound + 1)
  have hI := imageBand_le N (s.imagesFound + 1)
  unfold update_stats_from_log update_complete update_image update_article scrape_run_finish
  split_ifs <;> simp_all <;> omega

/-- Counterexample to C2 as stated: on a failed run (exit code 1), the
worker's end-of-run update writes progress 0 although 15 was stored. -/
theorem end_of_run_update_decreases_progress :
    (List.foldl (update_stats_from_log 10)
        (scrape_run_announce "session_1" (scrape_run_start scraping_stats_init))
        []).progress = 15 ∧
    (scrape_run_stats 10 "session_1" [] 1 true scraping_stats_init).progress = 0 :=
  ⟨rfl, rfl⟩

/-- Witness for C2 at the initial record and an article-saving line. -/
theorem per_line_progress_monotone_witness :
    scraping_stats_init.progress ≤
      (update_stats_from_log 10 scraping_stats_init
        "SAVED: out/article.json".toList).progress ∧
    (update_stats_from_log 10 scraping_stats_init
        "SAVED: out/article.json".toList).progress ≤ 100 ∧
    scraping_stats_init.progress ≤ (scrape_run_finish 0 true scraping_stats_init).progress :=
  per_line_progress_monotone 10 scraping_stats_init _ (by decide)

/-- C4 (amended): progress follows the 10→15→80→95→100 bands — 10 at
worker start, 15 at the session announcement; an article-saving line
raises progress to `max(current, int(min(15 + (articlesFound/N)·65, 80)))`
(equal, in exact arithmetic, to the `ℕ` band below) and an image-saving
line to `max(current, int(min(80 + (imagesFound/N)·15, 95)))`; a COMPLETE
line sets 100, as does a successful process exit *while the job is still
marked running* — a stopped job gets progress 0 even on exit code 0 (see
the counterexample to the unamended claim). -/
theorem progress_bands (N : ℕ) (sid : String) (s : ScrapingStats) (l : List Char)
    (hN : 0 < N) :
    (scrape_run_start s).progress = 10 ∧
    (scrape_run_announce sid (scrape_run_start s)).progress = 15 ∧
    (hasArticleMarker l = true →
      (update_stats_from_log N s l).articlesFound = s.articlesFound + 1 ∧
      (hasImageMarker l = false → hasCompleteMarker l = false →
        (update_stats_from_log N s l).progress
          = max s.progress (min (15 + 65 * (s.articlesFound + 1) / N) 80))) ∧
    (hasImageMarker l = true →
      (update_stats_from_log N s l).imagesFound = s.imagesFound + 1 ∧
      (hasArticleMarker l = false → hasCompleteMarker l = false →
        (update_stats_from_log N s l).progress
          = max s.progress (min (80 + 15 * (s.imagesFound + 1) / N) 95))) ∧
    (hasCompleteMarker l = true → (update_stats_from_log N s l).progress = 100) ∧
    (scrape_run_finish 0 true s).progress = 100 ∧
    (scrape_run_finish 0 true s).completed = true := by
  refine ⟨rfl, rfl, ?_, ?_, ?_, rfl, rfl⟩
  · intro h1
    constructor
    · unfold update_stats_from_log update_complete update_image update_article
      split_ifs <;> simp_all
    · intro h2 h3
      unfold update_stats_from_log update_complete update_image update_article
      rw [← articleBand_eq N (s.articlesFound + 1)]
      simp [h1, h2, h3]
  · intro h1
    constructor
    · unfold update_stats_from_log update_complete update_image update_article
      split_ifs <;> simp_all
    · intro h2 h3
      unfold update_stats_from_log update_complete update_image update_article
      rw [← imageBand_eq N (s.imagesFound + 1)]
      simp [h1, h2, h3]
  · intro h1
    unfold update_stats_from_log update_complete
    simp [h1]

/-- Counterexample to C4 as stated: a process exit with code 0 after the
job was stopped (`is_running` false) sets progress 0, not 100. -/
theorem successful_exit_when_stopped_zeroes_progress :
    (scrape_run_finish 0 false { scraping_stats_init with progress := 95 }).progress = 0 ∧
    ¬(scrape_run_finish 0 false { scraping_stats_init with progress := 95 }).progress = 100 :=
  ⟨rfl, by decide⟩

/-- Witness for C4 at N = 10 from the initial record: one saved article
gives progress 21, one saved image 81, a COMPLETE line 100, and a
successful unstopped exit 100. -/
theorem progress_bands_witness :
    (update_stats_from_log 10 scraping_stats_init
        "SAVED: out/article.json".toList).articlesFound = 1 ∧
    (update_stats_from_log 10 scraping_stats_init
        "SAVED: out/article.json".toList).progress = 21 ∧
    (update_stats_from_log 10 scraping_stats_init
        "SUCCESS: Saved out/image.jpg".toList).imagesFound = 1 ∧
    (update_stats_from_log 10 scraping_stats_init
        "SUCCESS: Saved out/image.jpg".toList).progress = 81 ∧
    (update_stats_from_log 10 scraping_stats_init "Scraping COMPLETE".toList).progress = 100 ∧
    (scrape_run_finish 0 true scraping_stats_init).progress = 100 := by
  have hA := progress_bands 10 "session_1" scraping_stats_init
    "SAVED: out/article.json".toList (by decide)
  have hI := progress_bands 10 "session_1" scraping_stats_init
    "SUCCESS: Saved out/image.jpg".toList (by decide)
  have hC := progress_bands 10 "session_1" scraping_stats_init
    "Scraping COMPLETE".toList (by decide)
  exact ⟨(hA.2.2.1 (by decide)).1,
         ((hA.2.2.1 (by decide)).2 (by decide) (by decide)).trans (by decide),
         (hI.2.2.2.1 (by decide)).1,
         ((hI.2.2.2.1 (by decide)).2 (by decide) (by decide)).trans (by decide),
         hC.2.2.2.2.1 (by decide),
         hA.2.2.2.2.2.1⟩

/-- C1 (amended): each job-starting endpoint (POST /start_scraping,
/convert_to_text, /generate_summaries) is gated by its kind's active flag:
when the flag is set it answers HTTP 400 with an error body and leaves the
whole server state — status records, log buffers and flags — unchanged.
POST /stop_scraping is not gated: it always answers the 200
`{'status': 'stopped'}` body and clears the scrape active flag (see the
counterexample to the unamended claim). -/
theorem start_endpoints_gated (url ss : Option String) (N : ℕ) (sid : String)
    (st : ServerState) :
    (st.scraping_active = true →
      start_scraping url N sid st = (.badRequest "Scraping already in progress", st)) ∧
    (st.conversion_active = true →
      convert_to_text ss st = (.badRequest "Conversion already in progress", st)) ∧
    (st.summarization_active = true →
      generate_summaries ss st = (.badRequest "Summarization already in progress", st)) ∧
    stop_scraping st = (.stopped, { st with scraping_active := false }) := by
  refine ⟨?_, ?_, ?_, rfl⟩ <;> intro h <;>
    simp [start_scraping, convert_to_text, generate_summaries, h]

/-- Counterexample to C1 as stated: with a scrape active, POST
/stop_scraping does not answer 400 — it answers the 200 "stopped" body and
flips the active flag, so neither the 400 response nor the
state-unchanged part holds for it. -/
theorem stop_scraping_not_gated :
    busyState.scraping_active = true ∧
    (stop_scraping busyState).1 = .stopped ∧
    (stop_scraping busyState).2.scraping_active = false :=
  ⟨rfl, rfl, rfl⟩

/-- Witness for C1 at a state with all three kinds active. -/
theorem start_endpoints_gated_witness :
    start_scraping (some "https://example.com") 10 "session_1" busyState
      = (.badRequest "Scraping already in progress", busyState) ∧
    convert_to_text (some "session_1") busyState
      = (.badRequest "Conversion already in progress", busyState) ∧
    generate_summaries (some "session_1") busyState
      = (.badRequest "Summarization already in progress", busyState) :=
  ⟨(start_endpoints_gated (some "https://example.com") (some "session_1") 10
      "session_1" busyState).1 rfl,
   (start_endpoints_gated (some "https://example.com") (some "session_1") 10
      "session_1" busyState).2.1 rfl,
   (start_endpoints_gated (some "https://example.com") (some "session_1") 10
      "session_1" busyState).2.2.1 rfl⟩

/-- C8: with the corresponding job not active, a missing or empty `url`
(for /start_scraping) or `sourceSession` (for /convert_to_text and
/generate_summaries) makes the endpoint answer HTTP 400 with an error
body, start no background job, and leave the server state exactly as it
was. -/
theorem blank_input_rejected (u ss : Option String) (N : ℕ) (sid : String) (st : ServerState)
    (hu : isBlank u = true) (hss : isBlank ss = true) :
    (st.scraping_active = false →
      start_scraping u N sid st = (.badRequest "URL is required", st)) ∧
    (st.conversion_active = false →
      convert_to_text ss st = (.badRequest "sourceSession is required", st)) ∧
    (st.summarization_active = false →
      generate_summaries ss st = (.badRequest "sourceSession is required", st)) := by
  refine ⟨?_, ?_, ?_⟩ <;> intro h <;>
    simp [start_scraping, convert_to_text, generate_summaries, h, hu, hss]

/-- Witness for C8 with a missing url and an empty session id: at the idle
state for /start_scraping, and — since each endpoint depends only on its
own kind's flag — at a state with a scrape running for /convert_to_text
and /generate_summaries. -/
theorem blank_input_rejected_witness :
    start_scraping none 10 "session_1" idleState = (.badRequest "URL is required", idleState) ∧
    convert_to_text (some "") scrapeOnlyState
      = (.badRequest "sourceSession is required", scrapeOnlyState) ∧
    generate_summaries (some "") scrapeOnlyState
      = (.badRequest "sourceSession is required", scrapeOnlyState) :=
  ⟨(blank_input_rejected none (some "") 10 "session_1" idleState rfl rfl).1 rfl,
   (blank_input_rejected none (some "") 10 "session_1" scrapeOnlyState rfl rfl).2.1 rfl,
   (blank_input_rejected none (some "") 10 "session_1" scrapeOnlyState rfl rfl).2.2 rfl⟩

/-- C7: POST /list_bucket partitions the listing one level deep under the
normalized prefix ('/' appended when the request prefix is non-empty and
does not already end in '/'): folders are exactly the common prefixes with
the prefix and trailing '/' stripped, files are exactly the listed objects
other than the prefix object itself whose remaining key has no '/', each
reported with name, full key, size and last-modified time. -/
theorem list_bucket_partition (req : List Char) (page : BucketPage) (fo : FolderEntry)
    (fi : FileEntry) :
    ((!req.isEmpty && !(List.isSuffixOf "/".toList req)) = true →
      normalize_pfx req = req ++ "/".toList) ∧
    ((!req.isEmpty && !(List.isSuffixOf "/".toList req)) = false →
      normalize_pfx req = req) ∧
    (fo ∈ (list_bucket req page).1 ↔
      ∃ cp ∈ page.commonPfxs,
        fo.name = rstrip '/' (cp.drop (normalize_pfx req).length)) ∧
    (fi ∈ (list_bucket req page).2 ↔
      ∃ obj ∈ page.contents,
        obj.key ≠ normalize_pfx req ∧
        (obj.key.drop (normalize_pfx req).length).contains '/' = false ∧
        fi = ⟨obj.key.drop (normalize_pfx req).length, obj.key, obj.size,
              obj.lastModified⟩) := by
  refine ⟨?_, ?_, ?_, ?_⟩
  · intro h
    simp only [normalize_pfx, h, if_true]
  · intro h
    simp only [normalize_pfx, h, Bool.false_eq_true, if_false]
  · simp only [list_bucket, List.mem_map]
    constructor
    · rintro ⟨cp, hcp, rfl⟩
      exact ⟨cp, hcp, rfl⟩
    · rintro ⟨cp, hcp, hname⟩
      refine ⟨cp, hcp, ?_⟩
      cases fo
      simp_all
  · simp only [list_bucket, List.mem_filterMap]
    constructor
    · rintro ⟨obj, hobj, hsome⟩
      split_ifs at hsome with h1 h2
      · refine ⟨obj, hobj, h1, ?_, ?_⟩
        · simpa using h2
        · exact (Option.some.inj hsome).symm
    · rintro ⟨obj, hobj, h1, h2, rfl⟩
      refine ⟨obj, hobj, ?_⟩
      rw [if_neg h1, if_pos (by simpa using h2)]

/-- Witness for C7 on a concrete listing: the request prefix gets its
slash, the sub-folder shows up stripped, and the top-level file is listed
with its metadata. -/
theorem list_bucket_partition_witness :
    normalize_pfx "session_1".toList = "session_1".toList ++ "/".toList ∧
    (⟨"images".toList⟩ : FolderEntry) ∈ (list_bucket "session_1".toList samplePage).1 ∧
    (⟨"a.json".toList, "session_1/a.json".toList, 120, "2025-01-01T00:00:01"⟩ : FileEntry)
      ∈ (list_bucket "session_1".toList samplePage).2 := by
  have h := list_bucket_partition "session_1".toList samplePage ⟨"images".toList⟩
    ⟨"a.json".toList, "session_1/a.json".toList, 120, "2025-01-01T00:00:01"⟩
  exact ⟨h.1 (by decide),
         h.2.2.1.mpr ⟨"session_1/images/".toList, by decide, by decide⟩,
         h.2.2.2.mpr ⟨⟨"session_1/a.json".toList, 120, "2025-01-01T00:00:01"⟩,
           by decide, by decide, by decide, by decide⟩⟩

end Scraper
